import Mathlib

/-!
Shallow embedding of the a2a-example repository (src/index.js): a two-agent
LangGraph workflow.  The state graph holds four channels with per-field
reducers; the researcher and writer stages each call an external
text-generation capability (the LLM), modelled here as an oracle function
that may fail.  The compiled graph wires START to the researcher, a
conditional edge from the researcher through `routeAgent`, and a fixed edge
from the writer to END.
-/

namespace A2A

/-- Message role, as in @langchain/core messages: HumanMessage vs AIMessage. -/
inductive Role where
  | human
  | ai
deriving DecidableEq, Repr

/-- A chat message: role plus text content. -/
structure Message where
  role : Role
  content : String
deriving DecidableEq, Repr

/-- The shared graph state: the four channels declared in `buildGraph`
(src/index.js lines 85-104). -/
structure AgentState where
  messages : List Message
  currentAgent : String
  researchData : String
  finalOutput : String
deriving DecidableEq, Repr

/-- A value returned by a stage function.  In JS a stage returns an object
whose fields are merged channel-by-channel; a field can be absent
(`none`).  The stages in this repository spread `...state`, so they in fact
return every field. -/
structure StateUpdate where
  messages : Option (List Message)
  currentAgent : Option String
  researchData : Option String
  finalOutput : Option String
deriving DecidableEq, Repr

/-- The `messages` channel reducer (src/index.js line 88):
`(left, right) => (left || []).concat(right || [])`.  The engine always
supplies a defined left value; an absent right contributes nothing. -/
def messagesReducer (left : List Message) (right : Option (List Message)) :
    List Message :=
  left ++ right.getD []

/-- The overwrite reducer used for `currentAgent`, `researchData` and
`finalOutput` (src/index.js lines 92, 96, 100): `(left, right) => right || left`.
In JS the incoming value wins when truthy; `undefined` and the empty string
are falsy, so both leave the old value in place. -/
def overwriteReducer (left : String) (right : Option String) : String :=
  match right with
  | none => left
  | some s => if s = "" then left else s

/-- Merge a stage output into the running state, field by field, each with
its channel reducer. -/
def applyUpdate (s : AgentState) (u : StateUpdate) : AgentState :=
  { messages := messagesReducer s.messages u.messages
    currentAgent := overwriteReducer s.currentAgent u.currentAgent
    researchData := overwriteReducer s.researchData u.researchData
    finalOutput := overwriteReducer s.finalOutput u.finalOutput }

/-- The external text-generation capability: takes prompt messages, returns
a message or fails with an error string (network/auth/etc.). -/
def LLM : Type := List Message → Except String Message

/-- The fallback topic used when the last message is absent or has empty
content (src/index.js line 26:
`state.messages[state.messages.length - 1]?.content || "AI and Machine Learning"`). -/
def topicOf (msgs : List Message) : String :=
  match msgs.getLast? with
  | none => "AI and Machine Learning"
  | some m => if m.content = "" then "AI and Machine Learning" else m.content

/-- The researcher prompt template (src/index.js lines 28-29). -/
def researchPrompt (topic : String) : String :=
  "You are a research agent. Gather key facts about: " ++ topic ++
    ". \n  Provide 3-4 important points in a concise manner."

/-- The writer prompt template (src/index.js lines 49-54). -/
def writerPrompt (researchData : String) : String :=
  "You are a writer agent. Take the following research data and \n  " ++
    "create a well-formatted, engaging summary:\n  \n  Research Data: " ++
    researchData ++
    "\n  \n  Create a concise, professional summary with proper formatting."

/-- Researcher stage (src/index.js lines 23-41).  Reads the last message as
the topic, invokes the LLM, and returns `...state` with `researchData` set
to the response text, `currentAgent` set to "writer", and `messages` set to
the FULL old list with the response appended. -/
def researcherAgent (llm : LLM) (state : AgentState) :
    Except String StateUpdate :=
  let topic := topicOf state.messages
  match llm [⟨Role.human, researchPrompt topic⟩] with
  | .error e => .error e
  | .ok response =>
      .ok { messages := some (state.messages ++ [response])
            currentAgent := some "writer"
            researchData := some response.content
            finalOutput := some state.finalOutput }

/-- Writer stage (src/index.js lines 46-66).  Invokes the LLM on the
research data and returns `...state` with `finalOutput` set to the response
text, `currentAgent` set to "complete", and `messages` set to the FULL old
list with the response appended. -/
def writerAgent (llm : LLM) (state : AgentState) :
    Except String StateUpdate :=
  match llm [⟨Role.human, writerPrompt state.researchData⟩] with
  | .error e => .error e
  | .ok response =>
      .ok { messages := some (state.messages ++ [response])
            currentAgent := some "complete"
            researchData := some state.researchData
            finalOutput := some response.content }

/-- Router function (src/index.js lines 71-79). -/
def routeAgent (state : AgentState) : String :=
  if state.currentAgent = "researcher" then "researcher"
  else if state.currentAgent = "writer" then "writer"
  else "end"

/-- The two registered stage names. -/
inductive NodeName where
  | researcher
  | writer
deriving DecidableEq, Repr

/-- Errors a run can end with. -/
inductive RunError where
  /-- The LLM call inside a stage failed; the failure bubbles up uncaught. -/
  | llmError (msg : String)
  /-- The router returned a label that the conditional-edge mapping
  (`{ writer: "writer", end: END }`, src/index.js lines 114-117) does not
  contain. -/
  | unmappedRoute (label : String)
  /-- The engine model ran out of fuel (never happens for this graph). -/
  | outOfFuel
deriving DecidableEq, Repr

/-- Stage registry: name to stage function (src/index.js lines 107-108). -/
def stageOf (llm : LLM) : NodeName → AgentState → Except String StateUpdate
  | .researcher => researcherAgent llm
  | .writer => writerAgent llm

/-- Edge resolution after a stage, on the merged state.  The researcher has
conditional edges through `routeAgent` with mapping
`{ writer: "writer", end: END }`; the writer has a fixed edge to END
(src/index.js lines 111-120).  `none` means END. -/
def nextNode (n : NodeName) (s : AgentState) :
    Except RunError (Option NodeName) :=
  match n with
  | .researcher =>
      let label := routeAgent s
      if label = "writer" then .ok (some .writer)
      else if label = "end" then .ok none
      else .error (.unmappedRoute label)
  | .writer => .ok none

/-- The engine loop: execute the current stage, merge its output, resolve
the next edge, repeat until END.  Returns the outcome together with the
list of stage names whose functions were invoked, in order. -/
def runFrom (llm : LLM) :
    Nat → NodeName → AgentState → Except RunError AgentState × List NodeName
  | 0, _, _ => (.error .outOfFuel, [])
  | fuel + 1, n, s =>
      match stageOf llm n s with
      | .error e => (.error (.llmError e), [n])
      | .ok u =>
          let s' := applyUpdate s u
          match nextNode n s' with
          | .error e => (.error e, [n])
          | .ok none => (.ok s', [n])
          | .ok (some n') =>
              let r := runFrom llm fuel n' s'
              (r.1, n :: r.2)

/-- A full run of the compiled graph: the fixed entry edge START →
researcher, then the loop.  Fuel 2 suffices (proved below). -/
def runGraph (llm : LLM) (init : AgentState) :
    Except RunError AgentState × List NodeName :=
  runFrom llm 2 .researcher init

/-- The initial state built in `main` (src/index.js lines 148-153). -/
def initialState : AgentState :=
  { messages := [⟨Role.human, "Tell me about LangGraph and its uses"⟩]
    currentAgent := "researcher"
    researchData := ""
    finalOutput := "" }

/-- JS truthiness test for the API-key environment value:
`!process.env.OPENAI_API_KEY` is true when the variable is unset or empty. -/
def isFalsyEnv : Option String → Bool
  | none => true
  | some s => s = ""

/-- Observable outcome of the process entry point. -/
structure MainOutcome where
  exitCode : Nat
  printedRemediation : Bool
  executedStages : List NodeName
  printedFinalOutput : Option String
deriving DecidableEq, Repr

/-- The `main` function (src/index.js lines 128-175): check the API key
first (exit 1 with remediation guidance when absent, before the graph is
built); otherwise build and run the graph on `initialState`, print the
final summary on success, or report the error and exit 1 on failure. -/
def main (apiKey : Option String) (llm : LLM) : MainOutcome :=
  if isFalsyEnv apiKey then
    { exitCode := 1
      printedRemediation := true
      executedStages := []
      printedFinalOutput := none }
  else
    match runGraph llm initialState with
    | (.ok s, tr) =>
        { exitCode := 0
          printedRemediation := false
          executedStages := tr
          printedFinalOutput := some s.finalOutput }
    | (.error _, tr) =>
        { exitCode := 1
          printedRemediation := false
          executedStages := tr
          printedFinalOutput := none }

/-- The merged state after a successful researcher stage whose LLM call
returned `r1`: the stage output merged by `applyUpdate` (spelled out). -/
def afterResearch (s : AgentState) (r1 : Message) : AgentState :=
  ⟨s.messages ++ (s.messages ++ [r1]), "writer",
   overwriteReducer s.researchData (some r1.content), s.finalOutput⟩

/-- The merged state after a successful writer stage whose LLM call
returned `r2`. -/
def afterWrite (s : AgentState) (r2 : Message) : AgentState :=
  ⟨s.messages ++ (s.messages ++ [r2]), "complete", s.researchData,
   overwriteReducer s.finalOutput (some r2.content)⟩

/-- A demonstration oracle: the generation capability always succeeds and
returns a fixed non-empty reply. -/
def demoLLM : LLM := fun _ => .ok ⟨Role.ai, "R"⟩

/-- A demonstration oracle: the generation capability always fails. -/
def failLLM : LLM := fun _ => .error "boom"

/-- The final state of a run of the compiled graph with `demoLLM` from
`initialState` (checked below by evaluation). -/
def demoFinal : AgentState :=
  ⟨[⟨Role.human, "Tell me about LangGraph and its uses"⟩,
    ⟨Role.human, "Tell me about LangGraph and its uses"⟩,
    ⟨Role.ai, "R"⟩,
    ⟨Role.human, "Tell me about LangGraph and its uses"⟩,
    ⟨Role.human, "Tell me about LangGraph and its uses"⟩,
    ⟨Role.ai, "R"⟩,
    ⟨Role.ai, "R"⟩],
   "complete", "R", "R"⟩

/-- The initial state of the first test scenario: one human message with
topic "T". -/
def scenarioInit : AgentState :=
  ⟨[⟨Role.human, "T"⟩], "researcher", "", ""⟩

/-! ## Engine characterization lemmas -/

lemma runFrom_succ (llm : LLM) (fuel : Nat) (n : NodeName) (s : AgentState) :
    runFrom llm (fuel + 1) n s =
      match stageOf llm n s with
      | .error e => (.error (.llmError e), [n])
      | .ok u =>
          let s' := applyUpdate s u
          match nextNode n s' with
          | .error e => (.error e, [n])
          | .ok none => (.ok s', [n])
          | .ok (some n') =>
              let r := runFrom llm fuel n' s'
              (r.1, n :: r.2) := rfl

lemma researcher_step (llm : LLM) (s : AgentState) (r1 : Message)
    (h : llm [⟨Role.human, researchPrompt (topicOf s.messages)⟩] = .ok r1) :
    researcherAgent llm s =
      .ok ⟨some (s.messages ++ [r1]), some "writer", some r1.content,
           some s.finalOutput⟩ := by
  simp [researcherAgent, h]

lemma researcher_step_err (llm : LLM) (s : AgentState) (e : String)
    (h : llm [⟨Role.human, researchPrompt (topicOf s.messages)⟩] = .error e) :
    researcherAgent llm s = .error e := by
  simp [researcherAgent, h]

lemma writer_step (llm : LLM) (s : AgentState) (r2 : Message)
    (h : llm [⟨Role.human, writerPrompt s.researchData⟩] = .ok r2) :
    writerAgent llm s =
      .ok ⟨some (s.messages ++ [r2]), some "complete", some s.researchData,
           some r2.content⟩ := by
  simp [writerAgent, h]

lemma writer_step_err (llm : LLM) (s : AgentState) (e : String)
    (h : llm [⟨Role.human, writerPrompt s.researchData⟩] = .error e) :
    writerAgent llm s = .error e := by
  simp [writerAgent, h]

lemma applyUpdate_researcher (s : AgentState) (r1 : Message) :
    applyUpdate s ⟨some (s.messages ++ [r1]), some "writer", some r1.content,
      some s.finalOutput⟩ = afterResearch s r1 := by
  simp [applyUpdate, messagesReducer, overwriteReducer, afterResearch]

lemma applyUpdate_writer (s : AgentState) (r2 : Message) :
    applyUpdate s ⟨some (s.messages ++ [r2]), some "complete",
      some s.researchData, some r2.content⟩ = afterWrite s r2 := by
  simp [applyUpdate, messagesReducer, overwriteReducer, afterWrite]

lemma nextNode_researcher_writer (s : AgentState)
    (h : s.currentAgent = "writer") :
    nextNode .researcher s = .ok (some .writer) := by
  simp [nextNode, routeAgent, h]

lemma runFrom_writer (llm : LLM) (fuel : Nat) (s : AgentState) :
    runFrom llm (fuel + 1) .writer s =
      match llm [⟨Role.human, writerPrompt s.researchData⟩] with
      | .error e => (.error (.llmError e), [.writer])
      | .ok r2 => (.ok (afterWrite s r2), [.writer]) := by
  rw [runFrom_succ]
  cases h : llm [⟨Role.human, writerPrompt s.researchData⟩] with
  | error e => rw [show stageOf llm .writer s = writerAgent llm s from rfl,
      writer_step_err llm s e h]
  | ok r2 =>
      rw [show stageOf llm .writer s = writerAgent llm s from rfl,
        writer_step llm s r2 h]
      simp [nextNode, applyUpdate_writer]

lemma runFrom_researcher (llm : LLM) (fuel : Nat) (init : AgentState) :
    runFrom llm (fuel + 2) .researcher init =
      match llm [⟨Role.human, researchPrompt (topicOf init.messages)⟩] with
      | .error e => (.error (.llmError e), [.researcher])
      | .ok r1 =>
          match llm [⟨Role.human,
              writerPrompt (afterResearch init r1).researchData⟩] with
          | .error e => (.error (.llmError e), [.researcher, .writer])
          | .ok r2 =>
              (.ok (afterWrite (afterResearch init r1) r2),
               [.researcher, .writer]) := by
  rw [show fuel + 2 = (fuel + 1) + 1 from rfl, runFrom_succ]
  cases h1 : llm [⟨Role.human, researchPrompt (topicOf init.messages)⟩] with
  | error e =>
      rw [show stageOf llm .researcher init = researcherAgent llm init from rfl,
        researcher_step_err llm init e h1]
  | ok r1 =>
      rw [show stageOf llm .researcher init = researcherAgent llm init from rfl,
        researcher_step llm init r1 h1]
      simp only []
      rw [applyUpdate_researcher]
      rw [nextNode_researcher_writer _ rfl]
      simp only []
      rw [runFrom_writer]
      cases h2 : llm [⟨Role.human,
          writerPrompt (afterResearch init r1).researchData⟩] with
      | error e => rfl
      | ok r2 => rfl

lemma runGraph_eq (llm : LLM) (init : AgentState) :
    runGraph llm init =
      match llm [⟨Role.human, researchPrompt (topicOf init.messages)⟩] with
      | .error e => (.error (.llmError e), [.researcher])
      | .ok r1 =>
          match llm [⟨Role.human,
              writerPrompt (afterResearch init r1).researchData⟩] with
          | .error e => (.error (.llmError e), [.researcher, .writer])
          | .ok r2 =>
              (.ok (afterWrite (afterResearch init r1) r2),
               [.researcher, .writer]) :=
  runFrom_researcher llm 0 init

lemma overwriteReducer_ne_empty (left : String) (right : Option String)
    (h : left ≠ "") : overwriteReducer left right ≠ "" := by
  cases right with
  | none => exact h
  | some t =>
      by_cases ht : t = ""
      · simp [overwriteReducer, ht]; exact h
      · simp [overwriteReducer, ht]

/-! ## Claims -/

/-- C4: the router is a pure function of the state: if `currentAgent`
equals "researcher" it returns the researcher stage's name; else if it
equals "writer" it returns the writer stage's name; otherwise it returns
the terminal label "end". -/
theorem routeAgent_spec (s : AgentState) :
    (s.currentAgent = "researcher" → routeAgent s = "researcher") ∧
    (s.currentAgent = "writer" → routeAgent s = "writer") ∧
    (s.currentAgent ≠ "researcher" → s.currentAgent ≠ "writer" →
      routeAgent s = "end") := by
  refine ⟨fun h => by simp [routeAgent, h],
    fun h => by simp [routeAgent, h],
    fun h1 h2 => by simp [routeAgent, h1, h2]⟩

/-- Witness for C4: the router evaluated on three concrete states, one per
branch. -/
theorem routeAgent_spec_witness :
    routeAgent ⟨[], "researcher", "", ""⟩ = "researcher" ∧
    routeAgent ⟨[], "writer", "", ""⟩ = "writer" ∧
    routeAgent ⟨[], "complete", "", ""⟩ = "end" :=
  ⟨(routeAgent_spec ⟨[], "researcher", "", ""⟩).1 rfl,
   (routeAgent_spec ⟨[], "writer", "", ""⟩).2.1 rfl,
   (routeAgent_spec ⟨[], "complete", "", ""⟩).2.2 (by decide) (by decide)⟩

/-- C5: the router's "researcher" branch is unreachable in the wired
graph: whenever the researcher stage succeeds, the merged state has
`currentAgent = "writer"`, so the router (consulted only after the
researcher) returns "writer", never "researcher", and the conditional
edge resolves to the writer node. -/
theorem router_researcher_branch_unreachable (llm : LLM) (s : AgentState)
    (u : StateUpdate) (h : researcherAgent llm s = .ok u) :
    (applyUpdate s u).currentAgent = "writer" ∧
    routeAgent (applyUpdate s u) = "writer" ∧
    routeAgent (applyUpdate s u) ≠ "researcher" ∧
    nextNode .researcher (applyUpdate s u) = .ok (some .writer) := by
  cases h1 : llm [⟨Role.human, researchPrompt (topicOf s.messages)⟩] with
  | error e =>
      rw [researcher_step_err llm s e h1] at h
      exact absurd h (by simp)
  | ok r1 =>
      rw [researcher_step llm s r1 h1] at h
      injection h with h
      subst h
      rw [applyUpdate_researcher]
      exact ⟨rfl, by simp [routeAgent, afterResearch],
        by simp [routeAgent, afterResearch],
        nextNode_researcher_writer _ rfl⟩

/-- Witness for C5: the demonstration oracle and the initial state of
`main`, with the researcher's concrete output update. -/
theorem router_researcher_branch_unreachable_witness :
    routeAgent (applyUpdate initialState
      ⟨some (initialState.messages ++ [(⟨Role.ai, "R"⟩ : Message)]),
       some "writer", some "R", some ""⟩) = "writer" :=
  (router_researcher_branch_unreachable demoLLM initialState
    ⟨some (initialState.messages ++ [(⟨Role.ai, "R"⟩ : Message)]),
     some "writer", some "R", some ""⟩ (by rfl)).2.1

/-- C6: for `researchData` and `finalOutput` the merge is overwrite, never
concatenation: with a non-empty prior value and a stage update carrying a
non-empty value x for the field, the merged value is exactly x. -/
theorem overwrite_not_concat (s : AgentState) (u : StateUpdate) (x : String)
    (hx : x ≠ "") :
    (s.researchData ≠ "" → u.researchData = some x →
      (applyUpdate s u).researchData = x) ∧
    (s.finalOutput ≠ "" → u.finalOutput = some x →
      (applyUpdate s u).finalOutput = x) := by
  constructor
  · intro _ hu
    simp [applyUpdate, overwriteReducer, hu, hx]
  · intro _ hu
    simp [applyUpdate, overwriteReducer, hu, hx]

/-- Witness for C6: a state with non-empty prior values and an update
carrying "X" for both fields. -/
theorem overwrite_not_concat_witness :
    (applyUpdate ⟨[], "a", "old", "older"⟩
      ⟨none, none, some "X", some "X"⟩).researchData = "X" ∧
    (applyUpdate ⟨[], "a", "old", "older"⟩
      ⟨none, none, some "X", some "X"⟩).finalOutput = "X" :=
  ⟨(overwrite_not_concat ⟨[], "a", "old", "older"⟩
      ⟨none, none, some "X", some "X"⟩ "X" (by decide)).1 (by decide) rfl,
   (overwrite_not_concat ⟨[], "a", "old", "older"⟩
      ⟨none, none, some "X", some "X"⟩ "X" (by decide)).2 (by decide) rfl⟩

/-- C7: the empty update is an identity for the merge: an update with no
items for `messages` (absent or empty list) and absent or empty values for
the three string channels leaves every field of the state unchanged. -/
theorem empty_update_identity (s : AgentState) (u : StateUpdate)
    (hm : u.messages = none ∨ u.messages = some [])
    (hc : u.currentAgent = none ∨ u.currentAgent = some "")
    (hr : u.researchData = none ∨ u.researchData = some "")
    (hf : u.finalOutput = none ∨ u.finalOutput = some "") :
    applyUpdate s u = s := by
  cases s
  rcases hm with hm | hm <;> rcases hc with hc | hc <;>
    rcases hr with hr | hr <;> rcases hf with hf | hf <;>
      simp [applyUpdate, messagesReducer, overwriteReducer, hm, hc, hr, hf]

/-- Witness for C7: the empty update applied to the concrete initial
state of `main`, mixing the absent and present-but-empty forms. -/
theorem empty_update_identity_witness :
    applyUpdate initialState ⟨none, some "", none, some ""⟩ = initialState :=
  empty_update_identity initialState ⟨none, some "", none, some ""⟩
    (Or.inl rfl) (Or.inr rfl) (Or.inl rfl) (Or.inr rfl)

/-- C10: the overwrite reducers treat every falsy incoming value — in
particular the empty string — as absent; consequently once a string
channel holds a non-empty value, no single merge can set it back to the
empty string. -/
theorem overwrite_falsy_absent (left : String) (right : Option String)
    (s : AgentState) (u : StateUpdate) :
    overwriteReducer left (some "") = overwriteReducer left none ∧
    overwriteReducer left (some "") = left ∧
    (left ≠ "" → overwriteReducer left right ≠ "") ∧
    (s.currentAgent ≠ "" → (applyUpdate s u).currentAgent ≠ "") ∧
    (s.researchData ≠ "" → (applyUpdate s u).researchData ≠ "") ∧
    (s.finalOutput ≠ "" → (applyUpdate s u).finalOutput ≠ "") := by
  refine ⟨by simp [overwriteReducer], by simp [overwriteReducer],
    overwriteReducer_ne_empty left right, ?_, ?_, ?_⟩ <;>
    exact fun h => overwriteReducer_ne_empty _ _ h

/-- Witness for C10: concrete strings and a concrete state whose fields
are non-empty, with an update carrying only empty strings. -/
theorem overwrite_falsy_absent_witness :
    overwriteReducer "x" (some "") = overwriteReducer "x" none ∧
    overwriteReducer "x" (some "") = "x" ∧
    overwriteReducer "x" (some "y") ≠ "" ∧
    (applyUpdate initialState
      ⟨none, some "", some "", some ""⟩).currentAgent ≠ "" := by
  obtain ⟨h1, h2, h3, h4, -, -⟩ := overwrite_falsy_absent "x" (some "y")
    initialState ⟨none, some "", some "", some ""⟩
  exact ⟨h1, h2, h3 (by decide), h4 (by decide)⟩

/-- C2: for every initial state and every oracle, the compiled graph
terminates after at most 2 stage executions: the run with fuel 2 already
agrees with any larger fuel, never reports fuel exhaustion, and its trace
is the researcher alone or the researcher followed by the writer. -/
theorem run_terminates_two_stages (llm : LLM) (init : AgentState)
    (fuel : Nat) (hfuel : 2 ≤ fuel) :
    runFrom llm fuel .researcher init = runGraph llm init ∧
    ((runGraph llm init).2 = [NodeName.researcher] ∨
      (runGraph llm init).2 = [NodeName.researcher, NodeName.writer]) ∧
    (runGraph llm init).2.length ≤ 2 ∧
    (runGraph llm init).1 ≠ .error .outOfFuel := by
  obtain ⟨k, rfl⟩ : ∃ k, fuel = k + 2 := ⟨fuel - 2, by omega⟩
  rw [runFrom_researcher, runGraph_eq]
  cases h1 : llm [⟨Role.human, researchPrompt (topicOf init.messages)⟩] with
  | error e => simp [h1]
  | ok r1 =>
      cases h2 : llm [⟨Role.human,
          writerPrompt (afterResearch init r1).researchData⟩] with
      | error e => simp [h1, h2]
      | ok r2 => simp [h1, h2]

/-- Witness for C2: the demonstration oracle with fuel 3 on the initial
state of `main`. -/
theorem run_terminates_two_stages_witness :
    runFrom demoLLM 3 NodeName.researcher initialState =
      runGraph demoLLM initialState ∧
    (runGraph demoLLM initialState).2.length ≤ 2 := by
  obtain ⟨h1, -, h3, -⟩ :=
    run_terminates_two_stages demoLLM initialState 3 (by decide)
  exact ⟨h1, h3⟩

/-- C1 counterexample: with the demonstration oracle and the initial state
of `main` (1 message), both stages execute, yet the final `messages` has
length 7, not 1 + 2: each stage returns the full old array plus one new
message and the append reducer concatenates it onto the old value. -/
theorem messages_length_counterexample :
    runGraph demoLLM initialState =
      (.ok demoFinal, [NodeName.researcher, NodeName.writer]) ∧
    initialState.messages.length = 1 ∧
    demoFinal.messages.length = 7 ∧
    (7 : Nat) ≠ 1 + 2 :=
  ⟨rfl, rfl, rfl, by decide⟩

/-- C1 (amended): each successfully executed stage yields merged messages
of length 2·(previous length) + 1, because the stage's update carries the
full prior array plus one new message and the append reducer concatenates;
a run in which both stages execute therefore ends with
4·(initial length) + 3 messages. -/
theorem messages_length_amended (llm : LLM) (init : AgentState) :
    (∀ u, researcherAgent llm init = .ok u →
      (applyUpdate init u).messages.length =
        2 * init.messages.length + 1) ∧
    (∀ u, writerAgent llm init = .ok u →
      (applyUpdate init u).messages.length =
        2 * init.messages.length + 1) ∧
    (∀ s tr, runGraph llm init = (.ok s, tr) →
      tr = [NodeName.researcher, NodeName.writer] ∧
      s.messages.length = 4 * init.messages.length + 3) := by
  refine ⟨?_, ?_, ?_⟩
  · intro u h
    cases h1 : llm [⟨Role.human, researchPrompt (topicOf init.messages)⟩] with
    | error e =>
        rw [researcher_step_err llm init e h1] at h
        exact absurd h (by simp)
    | ok r1 =>
        rw [researcher_step llm init r1 h1] at h
        injection h with h
        subst h
        rw [applyUpdate_researcher]
        simp [afterResearch]
        omega
  · intro u h
    cases h1 : llm [⟨Role.human, writerPrompt init.researchData⟩] with
    | error e =>
        rw [writer_step_err llm init e h1] at h
        exact absurd h (by simp)
    | ok r2 =>
        rw [writer_step llm init r2 h1] at h
        injection h with h
        subst h
        rw [applyUpdate_writer]
        simp [afterWrite]
        omega
  · intro s tr h
    rw [runGraph_eq] at h
    split at h
    · simp at h
    · split at h
      · simp at h
      · simp only [Prod.mk.injEq, Except.ok.injEq] at h
        obtain ⟨hs, ht⟩ := h
        subst hs
        subst ht
        refine ⟨rfl, ?_⟩
        simp [afterWrite, afterResearch]
        omega

/-- Witness for C1 (amended): the per-stage and whole-run length facts
instantiated with the demonstration oracle and `main`'s initial state. -/
theorem messages_length_amended_witness :
    (applyUpdate initialState
      ⟨some (initialState.messages ++ [(⟨Role.ai, "R"⟩ : Message)]),
       some "writer", some "R", some ""⟩).messages.length =
      2 * initialState.messages.length + 1 ∧
    demoFinal.messages.length = 4 * initialState.messages.length + 3 := by
  obtain ⟨hr, -, hrun⟩ := messages_length_amended demoLLM initialState
  refine ⟨hr _ (by rfl), ?_⟩
  exact (hrun demoFinal [NodeName.researcher, NodeName.writer] (by rfl)).2

/-- C3: starting from one human message "T" with `currentAgent =
"researcher"` and empty `researchData` and `finalOutput`, and an oracle
that always succeeds with non-empty text: after the research stage's
update is merged, `currentAgent` is "writer" and `researchData` is
non-empty; after the writer stage's update is merged, `finalOutput` is
non-empty and `currentAgent` is "complete"; the engine then halts with
that state after exactly the two stages. -/
theorem scenario_one (llm : LLM)
    (hllm : ∀ p, ∃ m, llm p = .ok m ∧ m.content ≠ "") :
    ∃ u1 u2,
      researcherAgent llm scenarioInit = .ok u1 ∧
      (applyUpdate scenarioInit u1).currentAgent = "writer" ∧
      (applyUpdate scenarioInit u1).researchData ≠ "" ∧
      writerAgent llm (applyUpdate scenarioInit u1) = .ok u2 ∧
      (applyUpdate (applyUpdate scenarioInit u1) u2).finalOutput ≠ "" ∧
      (applyUpdate (applyUpdate scenarioInit u1) u2).currentAgent =
        "complete" ∧
      runGraph llm scenarioInit =
        (.ok (applyUpdate (applyUpdate scenarioInit u1) u2),
         [NodeName.researcher, NodeName.writer]) := by
  obtain ⟨r1, h1, hc1⟩ :=
    hllm [⟨Role.human, researchPrompt (topicOf scenarioInit.messages)⟩]
  obtain ⟨r2, h2, hc2⟩ :=
    hllm [⟨Role.human, writerPrompt (afterResearch scenarioInit r1).researchData⟩]
  have hu1 := researcher_step llm scenarioInit r1 h1
  have hu2 := writer_step llm (afterResearch scenarioInit r1) r2 h2
  have e1 := applyUpdate_researcher scenarioInit r1
  have e2 := applyUpdate_writer (afterResearch scenarioInit r1) r2
  refine ⟨⟨some (scenarioInit.messages ++ [r1]), some "writer",
      some r1.content, some scenarioInit.finalOutput⟩,
    ⟨some ((afterResearch scenarioInit r1).messages ++ [r2]),
      some "complete", some (afterResearch scenarioInit r1).researchData,
      some r2.content⟩,
    hu1, ?_, ?_, ?_, ?_, ?_, ?_⟩
  · rw [e1]
    rfl
  · rw [e1]
    simp [afterResearch, scenarioInit, overwriteReducer, hc1]
  · rw [e1]
    exact hu2
  · rw [e1, e2]
    simp [afterWrite, afterResearch, scenarioInit, overwriteReducer, hc2]
  · rw [e1, e2]
    rfl
  · rw [e1, e2]
    simp [runGraph_eq, h1, h2]

/-- Witness for C3: the demonstration oracle (always succeeds with the
non-empty reply "R") run from the scenario's initial state. -/
theorem scenario_one_witness :
    (runGraph demoLLM scenarioInit).1.map (fun s => s.currentAgent) =
      .ok "complete" ∧
    (runGraph demoLLM scenarioInit).1.map
      (fun s => decide (s.finalOutput = "")) = .ok false := by
  obtain ⟨u1, u2, -, -, -, -, hfo, hcc, hrun⟩ :=
    scenario_one demoLLM (fun p => ⟨⟨Role.ai, "R"⟩, rfl, by decide⟩)
  rw [hrun]
  exact ⟨by simp [Except.map, hcc], by simp [Except.map, hfo]⟩

/-- C8: if the generation capability fails during the research stage, the
run aborts at once: the trace contains only the researcher, the writer is
never executed, the failure propagates unrecovered out of the engine, and
`main` (with the API key present) reports it and exits non-zero. -/
theorem research_failure_propagates (llm : LLM) (e : String)
    (key : Option String) (hkey : isFalsyEnv key = false)
    (h : llm [⟨Role.human,
      researchPrompt (topicOf initialState.messages)⟩] = .error e) :
    runGraph llm initialState =
      (.error (.llmError e), [NodeName.researcher]) ∧
    NodeName.writer ∉ (runGraph llm initialState).2 ∧
    main key llm = ⟨1, false, [NodeName.researcher], none⟩ := by
  have hrun : runGraph llm initialState =
      (.error (.llmError e), [NodeName.researcher]) := by
    simp [runGraph_eq, h]
  refine ⟨hrun, ?_, ?_⟩
  · rw [hrun]
    simp
  · simp [main, hkey, hrun]

/-- Witness for C8: the always-failing oracle with a present API key. -/
theorem research_failure_propagates_witness :
    runGraph failLLM initialState =
      (.error (.llmError "boom"), [NodeName.researcher]) ∧
    main (some "k") failLLM = ⟨1, false, [NodeName.researcher], none⟩ := by
  obtain ⟨h1, -, h3⟩ :=
    research_failure_propagates failLLM "boom" (some "k") (by decide) rfl
  exact ⟨h1, h3⟩

/-- C9: when the API-key environment value is falsy (absent or empty),
`main` prints the remediation guidance and exits 1 with no stage invoked;
when it is present, the check changes nothing: no remediation is printed
and the outcome is exactly the run's outcome. -/
theorem main_apikey_check (llm : LLM) (key : Option String) :
    (isFalsyEnv key = true → main key llm = ⟨1, true, [], none⟩) ∧
    (isFalsyEnv key = false →
      (main key llm).printedRemediation = false ∧
      (main key llm).executedStages = (runGraph llm initialState).2 ∧
      (main key llm).exitCode =
        (match (runGraph llm initialState).1 with
         | .ok _ => 0
         | .error _ => 1) ∧
      (main key llm).printedFinalOutput =
        (runGraph llm initialState).1.toOption.map
          (fun s => s.finalOutput)) := by
  constructor
  · intro h
    simp [main, h]
  · intro h
    rcases hr : runGraph llm initialState with ⟨res, tr⟩
    cases res <;> simp [main, h, hr, Except.toOption]

/-- Witness for C9: the absent key on one side, a present key with the
demonstration oracle on the other. -/
theorem main_apikey_check_witness :
    main none demoLLM = ⟨1, true, [], none⟩ ∧
    (main (some "k") demoLLM).printedRemediation = false ∧
    (main (some "k") demoLLM).executedStages =
      (runGraph demoLLM initialState).2 := by
  obtain ⟨h1, -⟩ := main_apikey_check demoLLM none
  obtain ⟨-, h2⟩ := main_apikey_check demoLLM (some "k")
  obtain ⟨h2a, h2b, -, -⟩ := h2 (by decide)
  exact ⟨h1 rfl, h2a, h2b⟩

end A2A
